import Mathlib

/-!
Verification of the historical-weather aggregation pipeline of the
`WeatherRecordsCard` component (`src/components/Layout.tsx`).

Calendar dates are modelled as integer day numbers (days since the Unix
epoch 1970-01-01, the same day counting that `date-fns` performs on
timezone-naive calendar dates): `subDays d n = d - n`, `addDays d n = d + n`,
`isAfter a b ↔ b < a`, `isBefore a b ↔ a < b`, `differenceInDays a b = a - b`,
and one observation per day means distinct day numbers.  Numeric weather
values are modelled as rationals.
-/

namespace WeatherApp

/-- Day count since 0000-03-01 of a proleptic-Gregorian civil date
(year ≥ 1), the standard `days_from_civil` computation; used to embed the
concrete `yyyy-MM-dd` dates appearing in the scenarios. -/
def days0 (y m d : Nat) : Nat :=
  let y' : Nat := if m ≤ 2 then y - 1 else y
  let era : Nat := y' / 400
  let yoe : Nat := y' % 400
  let mp : Nat := if 2 < m then m - 3 else m + 9
  let doy : Nat := (153 * mp + 2) / 5 + (d - 1)
  let doe : Nat := yoe * 365 + yoe / 4 - yoe / 100 + doy
  era * 146097 + doe

/-- The day number (days since 1970-01-01) of a civil date. -/
def toDays (y m d : Nat) : Int := (days0 y m d : Int) - 719468

/-- Inverse of `toDays` (valid from 0000-03-01 on): the `civil_from_days`
computation, producing (year, month, day). -/
def fromDays (z : Int) : Nat × Nat × Nat :=
  let n : Nat := (z + 719468).toNat
  let era : Nat := n / 146097
  let doe : Nat := n % 146097
  let yoe : Nat := (doe - doe / 1460 + doe / 36524 - doe / 146096) / 365
  let y : Nat := yoe + era * 400
  let doy : Nat := doe - (365 * yoe + yoe / 4 - yoe / 100)
  let mp : Nat := (5 * doy + 2) / 153
  let d : Nat := doy - (153 * mp + 2) / 5 + 1
  let m : Nat := if mp < 10 then mp + 3 else mp - 9
  (if m ≤ 2 then y + 1 else y, m, d)

/-- Left-pad a numeral with zeroes to the given width. -/
def padZero (w : Nat) (s : String) : String :=
  if s.length < w then String.mk (List.replicate (w - s.length) '0') ++ s else s

/-- `dateFormat(date, "yyyy-MM-dd")` on a day number. -/
def fmtDate (z : Int) : String :=
  let c := fromDays z
  padZero 4 (toString c.1) ++ "-" ++ padZero 2 (toString c.2.1) ++ "-" ++
    padZero 2 (toString c.2.2)

/-- A normalized per-day observation, as built by `fetchHistoricalWeather`
(the element type of `formData.temperatures`). -/
structure Temp where
  date : Int
  temperature : Rat
  description : String
  humidity : Option Rat
  windSpeed : Option Rat
  deriving DecidableEq, Repr

/-! ### DateRange validation (`handleDateChange`, lines 148-173) -/

/-- The three validation failures surfaced by `handleDateChange`. -/
inductive ValidationError where
  | futureDate
  | rangeTooLong
  | invertedRange
  deriving DecidableEq, Repr

/-- The validation sequence of `handleDateChange`: future-date check
(`isAfter(newStartDate, today) || isAfter(newEndDate, today)`), then the
31-day check (`differenceInDays(newEndDate, newStartDate) > 30`), then the
inversion check (`isBefore(newEndDate, newStartDate)`); the first failing
check wins, `none` means the range is accepted. -/
def validateRange (s e today : Int) : Option ValidationError :=
  if today < s ∨ today < e then some .futureDate
  else if 30 < e - s then some .rangeTooLong
  else if e < s then some .invertedRange
  else none

/-! ### Source splitting (`fetchHistoricalWeather`, lines 194-199, 202-238) -/

/-- `const cutoffDate = subDays(startOfToday(), 4)`. -/
def cutoffDate (today : Int) : Int := today - 4

/-- `const archiveEndDate = isBefore(endDate, cutoffDate) ? endDate : cutoffDate`. -/
def archiveEndDate (endDate today : Int) : Int :=
  if endDate < cutoffDate today then endDate else cutoffDate today

/-- `const needsRecentData = isAfter(endDate, cutoffDate)`. -/
def needsRecentData (endDate today : Int) : Bool := cutoffDate today < endDate

/-- The date range sent to the archive provider: the request at line 202 is
issued unconditionally with `start_date = startDate` and
`end_date = archiveEndDate`. -/
def archivePart (s e today : Int) : Int × Int := (s, archiveEndDate e today)

/-- The date range sent to the forecast provider, `none` when the forecast
request is skipped: issued only under `needsRecentData`, with
`start_date = addDays(cutoffDate, 1)` and `end_date = endDate`. -/
def forecastPart (e today : Int) : Option (Int × Int) :=
  if needsRecentData e today then some (cutoffDate today + 1, e) else none

/-- The list of provider requests (date ranges) issued by one call of
`fetchHistoricalWeather`: the archive request always, the forecast request
only when `needsRecentData`. -/
def requestsIssued (s e today : Int) : List (Int × Int) :=
  [archivePart s e today] ++
    (match forecastPart e today with
     | some p => [p]
     | none => [])

/-- The calendar-day set of a date range. -/
def daySet (p : Int × Int) : Finset Int := Finset.Icc p.1 p.2

/-- The calendar-day set of an optional date range. -/
def daySetOpt : Option (Int × Int) → Finset Int
  | some p => daySet p
  | none => ∅

/-- The list of calendar days of `[a, b]` in ascending order. -/
def dayList (a b : Int) : List Int :=
  (List.range (b + 1 - a).toNat).map fun (i : Nat) => a + (i : Int)

/-! ### Series merging (`fetchHistoricalWeather`, lines 213-255) -/

/-- `temperatures.sort((a, b) => compareAsc(new Date(a.date), new Date(b.date)))`
applied to the concatenation of the archive observations and the recent
observations (line 253): sort the combined list by date ascending. -/
def mergeTemps (archive recent : List Temp) : List Temp :=
  (archive ++ recent).mergeSort fun a b => decide (a.date ≤ b.date)

/-- The effect of one `fetchHistoricalWeather` call on
`formData.temperatures`.  The archive request is awaited first; a thrown
error lands in the `catch` block, which leaves `formData` untouched, so the
prior series is returned.  When `needsRecentData`, the forecast request is
awaited next with the same all-or-nothing behaviour.  Only when every
issued request succeeded is the merged series stored
(`setFormData(prev => ({ ...prev, temperatures }))`).  Adapter responses
are modelled as already-normalized observation lists. -/
def fetchHistoricalWeather (e today : Int)
    (archiveResp recentResp : Except Unit (List Temp))
    (prior : Option (List Temp)) : Option (List Temp) :=
  match archiveResp with
  | .error _ => prior
  | .ok archiveTemps =>
    if needsRecentData e today then
      match recentResp with
      | .error _ => prior
      | .ok recentTemps => some (mergeTemps archiveTemps recentTemps)
    else some (mergeTemps archiveTemps [])

/-! ### The stored record and the CSV export (lines 387-428) -/

/-- A persisted weather record, as used by the export functions. -/
structure WRecord where
  locationName : String
  lat : Rat
  lon : Rat
  startDate : Int
  endDate : Int
  temperatures : List Temp
  createdAt : Int
  deriving DecidableEq, Repr

/-- JavaScript number-to-string for the coordinate interpolations
`` `# Latitude: ${...}` ``; only its value on integral coordinates matters
in this development. -/
def numStr (q : Rat) : String :=
  if q.den = 1 then toString q.num else toString q

/-- `field.replace(/"/g, '""')` on the character list. -/
def doubleQuotesAux : List Char → List Char
  | [] => []
  | c :: cs =>
    if c = '"' then '"' :: '"' :: doubleQuotesAux cs else c :: doubleQuotesAux cs

/-- `field.replace(/"/g, '""')`. -/
def doubleQuotes (s : String) : String := String.mk (doubleQuotesAux s.data)

/-- `field.includes(c)`, as a test on the field's character list. -/
def hasChar (s : String) (c : Char) : Bool := s.data.contains c

/-- `escapeCSV` (lines 387-394): a non-empty field containing a comma, a
double quote or a newline is wrapped in double quotes with every internal
double quote doubled; every other field passes through unchanged. -/
def escapeCSV (f : String) : String :=
  if f ≠ "" ∧ (hasChar f ',' ∨ hasChar f '"' ∨ hasChar f '\n') then
    "\"" ++ doubleQuotes f ++ "\""
  else f

/-- `x.toFixed(1)`: the value rounded to one decimal place, rendered with
exactly one digit after the point. -/
def toFixed1 (q : Rat) : String :=
  let n : Int := round (10 * q)
  (if n < 0 then "-" else "") ++
    toString (n.natAbs / 10) ++ "." ++ toString (n.natAbs % 10)

/-- `temp.humidity?.toFixed(1) || ''` (and the same for wind speed): an
absent value renders as the empty string. -/
def optFixed1 : Option Rat → String
  | some q => toFixed1 q
  | none => ""

/-- The four metadata lines plus the blank separator line (lines 398-404);
none of them passes through `escapeCSV`. -/
def csvMetadata (r : WRecord) : List String :=
  ["# Location: " ++ r.locationName,
   "# Latitude: " ++ numStr r.lat,
   "# Longitude: " ++ numStr r.lon,
   "# Date Range: " ++ fmtDate r.startDate ++ " to " ++ fmtDate r.endDate,
   ""]

/-- The CSV header line (line 407). -/
def csvHeader : String := "Date,Temperature (°C),Description,Humidity (%),Wind Speed (m/s)"

/-- One data row (lines 410-424): the five fields are built, each is passed
through `escapeCSV`, and the results are joined with commas. -/
def csvRow (t : Temp) : String :=
  String.intercalate ","
    ([fmtDate t.date, toFixed1 t.temperature, t.description,
      optFixed1 t.humidity, optFixed1 t.windSpeed].map escapeCSV)

/-- The lines of `convertToCSV` in order:
`[...metadata, ...headers, ...rows]` (line 427). -/
def convertToCSVLines (r : WRecord) : List String :=
  csvMetadata r ++ [csvHeader] ++ r.temperatures.map csvRow

/-- `convertToCSV` (lines 396-428): the lines joined with `'\n'`. -/
def convertToCSV (r : WRecord) : String :=
  String.intercalate "\n" (convertToCSVLines r)

/-! ### The JSON export (`exportRecord`, lines 430-453) -/

/-- `Number(x.toFixed(1))`: the value rounded to one decimal place. -/
def roundTenth (q : Rat) : Rat := (round (10 * q) : Int) / 10

/-- One observation of the exported JSON document; `none` is JSON `null`. -/
structure ExportedTemp where
  date : String
  temperature : Rat
  description : String
  humidity : Option Rat
  windSpeed : Option Rat
  deriving DecidableEq, Repr

/-- Lines 443-449: the observation spread with `date` reformatted,
`temperature: Number(temp.temperature.toFixed(1))`,
`humidity: temp.humidity ? Number(temp.humidity.toFixed(1)) : null` and the
same for `windSpeed` — the JavaScript truthiness test sends both an absent
value and the value `0` to `null`. -/
def exportTemp (t : Temp) : ExportedTemp :=
  { date := fmtDate t.date
    temperature := roundTenth t.temperature
    description := t.description
    humidity :=
      match t.humidity with
      | some h => if h = 0 then none else some (roundTenth h)
      | none => none
    windSpeed :=
      match t.windSpeed with
      | some w => if w = 0 then none else some (roundTenth w)
      | none => none }

/-- The JSON document built at lines 437-451. -/
structure ExportDoc where
  locationName : String
  lat : Rat
  lon : Rat
  startDate : String
  endDate : String
  temperatures : List ExportedTemp
  createdAt : String
  deriving DecidableEq, Repr

/-- `exportRecord(record, 'json')` (lines 435-453), as the structured
document it serializes. -/
def exportRecordJson (r : WRecord) : ExportDoc :=
  { locationName := r.locationName
    lat := r.lat
    lon := r.lon
    startDate := fmtDate r.startDate
    endDate := fmtDate r.endDate
    temperatures := r.temperatures.map exportTemp
    createdAt := fmtDate r.createdAt }

/-! ### Asynchronous form updates (lines 191-266) -/

/-- A `{location, dateRange}` request pair, the parameters of one
`fetchHistoricalWeather` call. -/
structure ReqParams where
  lat : Rat
  lon : Rat
  startDate : Int
  endDate : Int
  deriving DecidableEq, Repr

/-- The part of the component state relevant to stale responses:
the most recently requested pair, the displayed series, and — as provenance
instrumentation — the request that produced the displayed series. -/
structure UIState where
  lastRequested : Option ReqParams
  temps : Option (List Temp)
  tempsSource : Option ReqParams
  deriving DecidableEq, Repr

/-- An interleaving event: a fetch is started for a pair, or the awaited
responses of an earlier fetch resolve and its continuation runs. -/
inductive UIEvent where
  | request (p : ReqParams)
  | response (p : ReqParams) (temps : List Temp)
  deriving DecidableEq, Repr

/-- One step of the form-state machine.  A `request` event records the
newly requested pair.  A `response` event is the continuation of
`fetchHistoricalWeather` after its awaits resolve: it runs
`setFormData(prev => ({ ...prev, temperatures }))` unconditionally — the
source contains no generation counter or version check comparing the
response's originating request against the current one. -/
def uiStep (s : UIState) : UIEvent → UIState
  | .request p => { s with lastRequested := some p }
  | .response p temps => { s with temps := some temps, tempsSource := some p }

/-- Run the form-state machine over an event interleaving. -/
def uiRun (s : UIState) (evs : List UIEvent) : UIState := evs.foldl uiStep s

/-- The initial form state: nothing requested, nothing displayed. -/
def uiInit : UIState := ⟨none, none, none⟩

/-! ### Saving (`saveRecord`, lines 315-351) -/

/-- The local rejection of `saveRecord`. -/
inductive SaveError where
  | incompleteRecord
  deriving DecidableEq, Repr

/-- The network call `saveRecord` would issue. -/
structure SaveRequest where
  locationName : String
  temperatures : List Temp
  deriving DecidableEq, Repr

/-- `saveRecord` (lines 315-323) up to the point of issuing its network
call: the guard
`!formData.location?.name || !formData.temperatures || formData.temperatures.length === 0`
rejects locally, returning before any request, with the cached record list
untouched.  Otherwise the save request is issued (the later cache
reconciliation happens only in the response handler, outside this
function's rejection path). -/
def saveRecord (locName : String) (temps : Option (List Temp))
    (records : List WRecord) :
    List WRecord × Option SaveRequest × Option SaveError :=
  if locName = "" ∨ temps = none ∨ temps = some [] then
    (records, none, some .incompleteRecord)
  else
    (records, some ⟨locName, temps.getD []⟩, none)

/-! ### Date-change handling (`handleDateChange`, lines 141-189) -/

/-- Which date input changed. -/
inductive ChangeKind where
  | start
  | «end»
  | both
  deriving DecidableEq, Repr

/-- The draft form state read and written by `handleDateChange`. -/
structure FormState where
  locationName : String
  lat : Rat
  lon : Rat
  startDate : Int
  endDate : Int
  temperatures : Option (List Temp)
  deriving DecidableEq, Repr

/-- Lines 142-143: the candidate dates, taking the unchanged side from the
current form state. -/
def resolveDates (st : FormState) (kind : ChangeKind) (sIn eIn : Option Int) :
    Option Int × Option Int :=
  (if kind = .end then some st.startDate else sIn,
   if kind = .start then some st.endDate else eIn)

/-- `handleDateChange` (lines 141-189): resolve the candidate dates, return
untouched if one is missing, validate, and on success update
`formData.dateRange` and issue a fetch for the new range; on a validation
failure return with the form state untouched and no fetch issued. -/
def handleDateChange (st : FormState) (today : Int) (kind : ChangeKind)
    (sIn eIn : Option Int) : FormState × Option ReqParams :=
  match resolveDates st kind sIn eIn with
  | (some s, some e) =>
    match validateRange s e today with
    | some _ => (st, none)
    | none => ({ st with startDate := s, endDate := e }, some ⟨st.lat, st.lon, s, e⟩)
  | _ => (st, none)

/-! ### Concrete data used in witnesses and counterexamples -/

/-- A record whose location name contains a comma, as geocoded display
names routinely do. -/
def csvCexRecord : WRecord :=
  { locationName := "Paris, France"
    lat := 48
    lon := 2
    startDate := toDays 2024 1 1
    endDate := toDays 2024 1 2
    temperatures := [⟨toDays 2024 1 1, 5, "cool", some 70, some 3⟩,
                     ⟨toDays 2024 1 2, 6, "mild", some 65, some 2⟩]
    createdAt := toDays 2024 1 3 }

/-- An observation whose humidity and wind speed are present with the
value `0` (a calm, perfectly dry day). -/
def tempZeroWind : Temp := ⟨0, 10, "calm", some 0, some 0⟩

/-- Forecast-adapter output for the sub-range 2024-03-07..2024-03-10, one
observation per day, deliberately out of order. -/
def cexRecent : List Temp :=
  [⟨toDays 2024 3 8, 11, "", none, none⟩,
   ⟨toDays 2024 3 7, 10, "", none, none⟩,
   ⟨toDays 2024 3 10, 13, "", none, none⟩,
   ⟨toDays 2024 3 9, 12, "", none, none⟩]

/-- Archive-adapter output for the sub-range 2024-01-01..2024-01-06, one
observation per day. -/
def witArchive : List Temp :=
  [⟨toDays 2024 1 3, 3, "", none, none⟩,
   ⟨toDays 2024 1 1, 1, "", none, none⟩,
   ⟨toDays 2024 1 2, 2, "", none, none⟩,
   ⟨toDays 2024 1 6, 6, "", none, none⟩,
   ⟨toDays 2024 1 5, 5, "", none, none⟩,
   ⟨toDays 2024 1 4, 4, "", none, none⟩]

/-- Forecast-adapter output for the sub-range 2024-01-07..2024-01-10, one
observation per day. -/
def witRecent : List Temp :=
  [⟨toDays 2024 1 8, 8, "", none, none⟩,
   ⟨toDays 2024 1 7, 7, "", none, none⟩,
   ⟨toDays 2024 1 10, 10, "", none, none⟩,
   ⟨toDays 2024 1 9, 9, "", none, none⟩]

/-- A first requested `{location, dateRange}` pair. -/
def reqA : ReqParams := ⟨48, 2, toDays 2024 1 1, toDays 2024 1 5⟩

/-- A second, different requested `{location, dateRange}` pair. -/
def reqB : ReqParams := ⟨48, 2, toDays 2024 1 1, toDays 2024 1 10⟩

/-- The series returned for `reqA`. -/
def respA : List Temp := [⟨toDays 2024 1 1, 1, "", none, none⟩]

/-- The series returned for `reqB`. -/
def respB : List Temp :=
  [⟨toDays 2024 1 1, 1, "", none, none⟩, ⟨toDays 2024 1 2, 2, "", none, none⟩]

end WeatherApp

namespace WeatherApp

/-! ## Helper lemmas -/

/-- A range passes validation exactly when it is not in the future, spans
at most 31 calendar days, and is not inverted. -/
theorem validateRange_eq_none_iff (s e t : Int) :
    validateRange s e t = none ↔ s ≤ t ∧ e ≤ t ∧ e - s ≤ 30 ∧ s ≤ e := by
  unfold validateRange
  split_ifs <;> simp_all <;> omega

/-! ## Claim C6 -/

/-- C6: validation checks FutureDate (start or end after today), then
RangeTooLong (more than 30 days between start and end), then InvertedRange
(end before start), reporting the first failing rule; in particular
2024-01-10..2024-01-01 fails InvertedRange for any `today` not before the
start, and `today+1..today+1` fails FutureDate. -/
theorem validateRange_ruleOrder (s e t : Int) :
    (validateRange s e t = some ValidationError.futureDate ↔ (t < s ∨ t < e)) ∧
    (validateRange s e t = some ValidationError.rangeTooLong ↔
      ¬(t < s ∨ t < e) ∧ 30 < e - s) ∧
    (validateRange s e t = some ValidationError.invertedRange ↔
      ¬(t < s ∨ t < e) ∧ ¬(30 < e - s) ∧ e < s) ∧
    (toDays 2024 1 10 ≤ t →
      validateRange (toDays 2024 1 10) (toDays 2024 1 1) t =
        some ValidationError.invertedRange) ∧
    validateRange (t + 1) (t + 1) t = some ValidationError.futureDate := by
  have h10 : toDays 2024 1 10 = 19732 := by decide
  have h01 : toDays 2024 1 1 = 19723 := by decide
  refine ⟨?_, ?_, ?_, ?_, ?_⟩ <;> unfold validateRange
  · split_ifs <;> simp_all
  · split_ifs <;> simp_all
  · split_ifs <;> simp_all
  · intro ht
    rw [h10] at ht ⊢
    rw [h01]
    split_ifs <;> first | rfl | omega
  · split_ifs <;> first | rfl | omega

/-- Witness for C6: the two scenarios at today = 2024-01-15. -/
theorem validateRange_ruleOrder_witness :
    validateRange (toDays 2024 1 10) (toDays 2024 1 1) (toDays 2024 1 15) =
        some ValidationError.invertedRange ∧
    validateRange (toDays 2024 1 15 + 1) (toDays 2024 1 15 + 1) (toDays 2024 1 15) =
        some ValidationError.futureDate :=
  ⟨(validateRange_ruleOrder 0 0 (toDays 2024 1 15)).2.2.2.1 (by decide),
   (validateRange_ruleOrder 0 0 (toDays 2024 1 15)).2.2.2.2⟩

/-! ## Claim C1 -/

/-- Membership in the archive part's calendar-day set. -/
theorem mem_daySet_archive (s e today x : Int) :
    x ∈ daySet (archivePart s e today) ↔ s ≤ x ∧ x ≤ e ∧ x ≤ cutoffDate today := by
  unfold daySet archivePart archiveEndDate
  rw [Finset.mem_Icc]
  split_ifs <;> omega

/-- Membership in the forecast part's calendar-day set. -/
theorem mem_daySetOpt_forecast (e today x : Int) :
    x ∈ daySetOpt (forecastPart e today) ↔ cutoffDate today < x ∧ x ≤ e := by
  unfold forecastPart needsRecentData
  rcases lt_or_ge (cutoffDate today) e with h | h
  · rw [if_pos (by simpa using h)]
    show x ∈ daySet _ ↔ _
    unfold daySet
    rw [Finset.mem_Icc]
    omega
  · rw [if_neg (by simpa using not_lt.mpr h)]
    show x ∈ (∅ : Finset Int) ↔ _
    simp
    omega

/-- C1 (amended): for every validated range whose start is at most
`cutoff + 1`, the splitter produces `archivePart = [start, min(end, cutoff)]`
and `forecastPart = [cutoff+1, end]` (the latter present exactly when
`end > cutoff`), the two parts are disjoint as calendar-day sets, and their
union equals the original range exactly, with no overlapping day and no
missing day.  For a validated range with `start > cutoff + 1` the forecast
part still begins at `cutoff + 1`, so the union strictly exceeds the range
— see the counterexample. -/
theorem splitRange_exact (s e today : Int)
    (hv : validateRange s e today = none) (hs : s ≤ cutoffDate today + 1) :
    archivePart s e today = (s, min e (cutoffDate today)) ∧
    forecastPart e today =
      (if cutoffDate today < e then some (cutoffDate today + 1, e) else none) ∧
    Disjoint (daySet (archivePart s e today)) (daySetOpt (forecastPart e today)) ∧
    daySet (archivePart s e today) ∪ daySetOpt (forecastPart e today) =
      Finset.Icc s e := by
  obtain ⟨hst, het, hlen, hse⟩ := (validateRange_eq_none_iff s e today).mp hv
  refine ⟨?_, ?_, ?_, ?_⟩
  · unfold archivePart archiveEndDate
    rw [min_def]
    split_ifs <;> simp_all <;> omega
  · unfold forecastPart needsRecentData
    simp only [decide_eq_true_eq]
  · rw [Finset.disjoint_left]
    intro x hx hx'
    rw [mem_daySet_archive] at hx
    rw [mem_daySetOpt_forecast] at hx'
    omega
  · ext x
    rw [Finset.mem_union, mem_daySet_archive, mem_daySetOpt_forecast, Finset.mem_Icc]
    simp only [cutoffDate] at hs ⊢
    omega

/-- Witness for C1 at the validated range 2024-01-01..2024-01-10 with
today = 2024-01-10 (cutoff 2024-01-06): the two parts partition the
range. -/
theorem splitRange_exact_witness :
    daySet (archivePart (toDays 2024 1 1) (toDays 2024 1 10) (toDays 2024 1 10)) ∪
        daySetOpt (forecastPart (toDays 2024 1 10) (toDays 2024 1 10)) =
      Finset.Icc (toDays 2024 1 1) (toDays 2024 1 10) :=
  (splitRange_exact (toDays 2024 1 1) (toDays 2024 1 10) (toDays 2024 1 10)
    (by decide) (by decide)).2.2.2

/-- Counterexample to C1 as stated: today = 2024-01-08 (cutoff 2024-01-04)
and the validated range 2024-01-07..2024-01-08, which lies entirely after
the cutoff.  The forecast part is [2024-01-05, 2024-01-08], so the union
of the two parts contains 2024-01-05, a day outside the original range:
the union is not the original range. -/
theorem splitRange_union_counterexample :
    validateRange (toDays 2024 1 7) (toDays 2024 1 8) (toDays 2024 1 8) = none ∧
    daySet (archivePart (toDays 2024 1 7) (toDays 2024 1 8) (toDays 2024 1 8)) ∪
        daySetOpt (forecastPart (toDays 2024 1 8) (toDays 2024 1 8)) ≠
      Finset.Icc (toDays 2024 1 7) (toDays 2024 1 8) := by
  constructor
  · decide
  · intro h
    have h5 : toDays 2024 1 5 ∈
        daySet (archivePart (toDays 2024 1 7) (toDays 2024 1 8) (toDays 2024 1 8)) ∪
          daySetOpt (forecastPart (toDays 2024 1 8) (toDays 2024 1 8)) := by decide
    rw [h] at h5
    have h5' : toDays 2024 1 5 ∉ Finset.Icc (toDays 2024 1 7) (toDays 2024 1 8) := by
      decide
    exact h5' h5

/-! ## Claim C2 -/

/-- C2 fails on the code: for today = 2024-01-08 the cutoff is 2024-01-04,
and for the validated range 2024-01-08..2024-01-08 — entirely after the
cutoff — `fetchHistoricalWeather` still issues the archive request, and
with a degenerate (inverted) date range: start 2024-01-08, end
2024-01-04. -/
theorem archiveRequest_neverSkipped :
    validateRange (toDays 2024 1 8) (toDays 2024 1 8) (toDays 2024 1 8) = none ∧
    cutoffDate (toDays 2024 1 8) < toDays 2024 1 8 ∧
    archivePart (toDays 2024 1 8) (toDays 2024 1 8) (toDays 2024 1 8) ∈
      requestsIssued (toDays 2024 1 8) (toDays 2024 1 8) (toDays 2024 1 8) ∧
    (archivePart (toDays 2024 1 8) (toDays 2024 1 8) (toDays 2024 1 8)).2 <
      (archivePart (toDays 2024 1 8) (toDays 2024 1 8) (toDays 2024 1 8)).1 := by
  decide

/-! ## Claim C5 -/

/-- The number of days of `[a, b]`. -/
theorem dayList_length (a b : Int) : (dayList a b).length = (b + 1 - a).toNat := by
  unfold dayList
  rw [List.length_map, List.length_range]

/-- The days of `[a, b]` are exactly the integers between `a` and `b`. -/
theorem mem_dayList {a b x : Int} : x ∈ dayList a b ↔ a ≤ x ∧ x ≤ b := by
  unfold dayList
  rw [List.mem_map]
  constructor
  · rintro ⟨i, hi, rfl⟩
    rw [List.mem_range] at hi
    omega
  · intro h
    refine ⟨(x - a).toNat, ?_, by omega⟩
    rw [List.mem_range]
    omega

/-- Each day appears once in `dayList`. -/
theorem dayList_nodup (a b : Int) : (dayList a b).Nodup := by
  unfold dayList
  exact List.Nodup.map (fun i j h => by omega) (List.nodup_range _)

/-- C5 (amended): for every validated range whose start is at most
`cutoff + 1` and every pair of adapter result sequences containing exactly
one observation per calendar day of their respective sub-ranges (in any
order), the merge — concatenation followed by a sort on date ascending —
yields a sequence whose length equals the number of calendar days of the
original range and whose dates are strictly increasing.  For a validated
range with `start > cutoff + 1` the forecast sub-range covers extra days
before the range's start, so the length equation fails — see the
counterexample. -/
theorem mergeTemps_spec (s e today : Int) (archive recent : List Temp)
    (hv : validateRange s e today = none) (hs : s ≤ cutoffDate today + 1)
    (ha : (archive.map Temp.date).Perm (dayList s (archiveEndDate e today)))
    (hr : (recent.map Temp.date).Perm
      (if needsRecentData e today then dayList (cutoffDate today + 1) e else [])) :
    (mergeTemps archive recent).length = (e - s + 1).toNat ∧
    List.Pairwise (fun x y : Temp => x.date < y.date) (mergeTemps archive recent) := by
  obtain ⟨hst, het, hlen, hse⟩ := (validateRange_eq_none_iff s e today).mp hv
  have hcut : cutoffDate today = today - 4 := rfl
  have hperm : (mergeTemps archive recent).Perm (archive ++ recent) :=
    List.mergeSort_perm (archive ++ recent) _
  have hdates : ((mergeTemps archive recent).map Temp.date).Perm
      ((archive.map Temp.date) ++ (recent.map Temp.date)) := by
    simpa using hperm.map Temp.date
  have hboth : ((mergeTemps archive recent).map Temp.date).Perm
      (dayList s (archiveEndDate e today) ++
        (if needsRecentData e today then dayList (cutoffDate today + 1) e else [])) :=
    hdates.trans (ha.append hr)
  constructor
  · have hlen1 : (mergeTemps archive recent).length =
        ((mergeTemps archive recent).map Temp.date).length := by simp
    rw [hlen1, hboth.length_eq, List.length_append, dayList_length]
    by_cases hc : needsRecentData e today
    · rw [if_pos hc, dayList_length]
      unfold needsRecentData at hc
      simp only [decide_eq_true_eq] at hc
      unfold archiveEndDate
      rw [if_neg (not_lt.mpr hc.le)]
      omega
    · rw [if_neg hc]
      unfold needsRecentData at hc
      simp only [decide_eq_true_eq] at hc
      unfold archiveEndDate
      simp only [List.length_nil]
      split_ifs with h1 <;> omega
  · have htrans : ∀ a b c : Temp, decide (a.date ≤ b.date) = true →
        decide (b.date ≤ c.date) = true → decide (a.date ≤ c.date) = true := by
      intro a b c h1 h2
      simp only [decide_eq_true_eq] at *
      omega
    have htotal : ∀ a b : Temp,
        (decide (a.date ≤ b.date) || decide (b.date ≤ a.date)) = true := by
      intro a b
      simp only [Bool.or_eq_true, decide_eq_true_eq]
      omega
    have hsorted : List.Pairwise (fun x y : Temp => x.date ≤ y.date)
        (mergeTemps archive recent) := by
      unfold mergeTemps
      exact (List.sorted_mergeSort htrans htotal (archive ++ recent)).imp
        fun h => by simpa using h
    have hnodupdays : (dayList s (archiveEndDate e today) ++
        (if needsRecentData e today then dayList (cutoffDate today + 1) e else [])).Nodup := by
      by_cases hc : needsRecentData e today
      · rw [if_pos hc]
        refine List.Nodup.append (dayList_nodup _ _) (dayList_nodup _ _) ?_
        intro x hx1 hx2
        rw [mem_dayList] at hx1 hx2
        unfold archiveEndDate at hx1
        split_ifs at hx1 <;> omega
      · rw [if_neg hc]
        simpa using dayList_nodup s (archiveEndDate e today)
    have hnodup : ((mergeTemps archive recent).map Temp.date).Nodup :=
      (hboth.nodup_iff).mpr hnodupdays
    have hne : List.Pairwise (fun x y : Temp => x.date ≠ y.date)
        (mergeTemps archive recent) := List.pairwise_map.mp hnodup
    exact (hsorted.and hne).imp fun h => lt_of_le_of_ne h.1 h.2

/-- Witness for C5: range 2024-01-01..2024-01-10 with today = 2024-01-10,
archive observations for 2024-01-01..2024-01-06 and forecast observations
for 2024-01-07..2024-01-10, both deliberately unordered; the merged series
has one entry per calendar day of the range. -/
theorem mergeTemps_spec_witness :
    (mergeTemps witArchive witRecent).length =
      (toDays 2024 1 10 - toDays 2024 1 1 + 1).toNat :=
  (mergeTemps_spec (toDays 2024 1 1) (toDays 2024 1 10) (toDays 2024 1 10)
    witArchive witRecent (by decide) (by decide) (by decide) (by decide)).1

/-- Counterexample to C5 as stated: today = 2024-03-10 (cutoff 2024-03-06)
and the validated range 2024-03-09..2024-03-10.  The archive sub-range is
empty (it has no calendar day), and the forecast sub-range is
2024-03-07..2024-03-10; with exactly one observation per day of each
sub-range the merged sequence has 4 entries, not the 2 calendar days of the
original range. -/
theorem mergeTemps_length_counterexample :
    validateRange (toDays 2024 3 9) (toDays 2024 3 10) (toDays 2024 3 10) = none ∧
    (([] : List Temp).map Temp.date).Perm
      (dayList (toDays 2024 3 9) (archiveEndDate (toDays 2024 3 10) (toDays 2024 3 10))) ∧
    (cexRecent.map Temp.date).Perm
      (if needsRecentData (toDays 2024 3 10) (toDays 2024 3 10) then
        dayList (cutoffDate (toDays 2024 3 10) + 1) (toDays 2024 3 10) else []) ∧
    (mergeTemps [] cexRecent).length ≠
      (toDays 2024 3 10 - toDays 2024 3 9 + 1).toNat := by
  refine ⟨by decide, by decide, by decide, ?_⟩
  have h := (List.mergeSort_perm (([] : List Temp) ++ cexRecent)
    (fun a b => decide (a.date ≤ b.date))).length_eq
  unfold mergeTemps
  rw [h]
  decide

/-! ## Claim C8 -/

/-- C8: whenever the archive fetch fails, or the forecast fetch is needed
and fails, `fetchHistoricalWeather` stores no observation from the request
— the succeeded sub-range is discarded with the rest — and the previously
displayed observation sequence, whatever it was, is retained unchanged. -/
theorem fetch_allOrNothing (e today : Int) (a r : Except Unit (List Temp))
    (prior : Option (List Temp))
    (h : a = .error () ∨ (needsRecentData e today = true ∧ r = .error ())) :
    fetchHistoricalWeather e today a r prior = prior := by
  rcases h with h | ⟨hn, hr⟩
  · subst h
    rfl
  · subst hr
    cases a with
    | error u => rfl
    | ok l => simp [fetchHistoricalWeather, hn]

/-- Witness for C8: the archive data for 2024-01-01..2024-01-06 arrives but
the forecast fetch fails; the prior series is kept and the archive data is
discarded. -/
theorem fetch_allOrNothing_witness :
    fetchHistoricalWeather (toDays 2024 1 10) (toDays 2024 1 10)
      (Except.ok witArchive) (Except.error ()) (some respA) = some respA :=
  fetch_allOrNothing _ _ _ _ _ (Or.inr ⟨by decide, rfl⟩)

/-! ## Claim C3 -/

/-- C3 (amended): the escaping rule is applied independently to every
data-row field — a field containing a comma, a double quote or a newline
is emitted wrapped in double quotes with every internal double quote
doubled, and every other field is emitted unchanged — and the description
value `He said "hi", then left` encodes as `"He said ""hi"", then left"`.
The four metadata lines, however, are emitted verbatim without passing
through `escapeCSV` — see the counterexample. -/
theorem escapeCSV_rule (f : String) (t : Temp) :
    ((hasChar f ',' = true ∨ hasChar f '"' = true ∨ hasChar f '\n' = true) →
      escapeCSV f = "\"" ++ doubleQuotes f ++ "\"") ∧
    (¬(hasChar f ',' = true ∨ hasChar f '"' = true ∨ hasChar f '\n' = true) →
      escapeCSV f = f) ∧
    escapeCSV "He said \"hi\", then left" = "\"He said \"\"hi\"\", then left\"" ∧
    csvRow t = String.intercalate ","
      ([fmtDate t.date, toFixed1 t.temperature, t.description,
        optFixed1 t.humidity, optFixed1 t.windSpeed].map escapeCSV) := by
  refine ⟨?_, ?_, by decide, rfl⟩
  · intro h
    have hne : f ≠ "" := by
      rintro rfl
      exact absurd h (by decide)
    unfold escapeCSV
    rw [if_pos ⟨hne, h⟩]
  · intro h
    unfold escapeCSV
    rw [if_neg fun hc => h hc.2]

/-- Witness for C3: a field containing a comma is wrapped in quotes. -/
theorem escapeCSV_rule_witness :
    escapeCSV "a,b" = "\"a,b\"" :=
  (escapeCSV_rule "a,b" ⟨0, 0, "", none, none⟩).1 (by decide)

/-- Counterexample to C3 as stated: for a record whose location is
`Paris, France`, the first metadata line of the CSV export contains a
comma yet is emitted verbatim, not in the escaped form the rule would
produce: the escaping rule is not applied to the metadata lines. -/
theorem csvMetadata_unescaped_counterexample :
    (convertToCSVLines csvCexRecord).head? = some "# Location: Paris, France" ∧
    hasChar "# Location: Paris, France" ',' = true ∧
    escapeCSV "# Location: Paris, France" ≠ "# Location: Paris, France" := by
  refine ⟨by decide, by decide, by decide⟩

/-! ## Claim C4 -/

/-- C4 fails on the code: for an observation whose humidity and wind speed
are present with the value `0`, the JSON export emits `null` for both
fields (the JavaScript truthiness test `temp.humidity ? ... : null`
conflates `0` with absence), so a field that is present with the value `0`
is not kept as its rounded number and re-import cannot reconstruct it. -/
theorem exportJson_zero_becomes_null :
    tempZeroWind.humidity = some 0 ∧ tempZeroWind.windSpeed = some 0 ∧
    (exportTemp tempZeroWind).humidity = none ∧
    (exportTemp tempZeroWind).windSpeed = none ∧
    ((exportRecordJson ⟨"A", 1, 2, 0, 0, [tempZeroWind], 0⟩).temperatures.map
        ExportedTemp.windSpeed) = [none] := by
  decide

/-! ## Claim C7 -/

/-- C7 fails on the code: two fetches are issued (`reqA` then `reqB`);
`reqB`'s response arrives first and then `reqA`'s stale response arrives.
The response handler stores arriving observations unconditionally, so the
stale response overwrites the fresher one: the final state's displayed
series comes from `reqA` although the most recently requested pair is
`reqB`. -/
theorem staleResponse_overwrites :
    reqA ≠ reqB ∧
    uiRun uiInit
        [UIEvent.request reqA, UIEvent.request reqB,
         UIEvent.response reqB respB, UIEvent.response reqA respA] =
      { lastRequested := some reqB, temps := some respA, tempsSource := some reqA } := by
  decide

/-! ## Claim C9 -/

/-- C9: a save attempted with an empty location name, or with no loaded
observation sequence, or with an empty one, is rejected locally with
IncompleteRecord: no network request is issued and the cached record list
is returned unchanged. -/
theorem saveRecord_rejects_incomplete (locName : String)
    (temps : Option (List Temp)) (records : List WRecord)
    (h : locName = "" ∨ temps = none ∨ temps = some []) :
    saveRecord locName temps records =
      (records, none, some SaveError.incompleteRecord) := by
  unfold saveRecord
  rw [if_pos h]

/-- Witness for C9: an empty location name with a non-empty series is
rejected with no request and the (empty) record cache unchanged. -/
theorem saveRecord_rejects_incomplete_witness :
    saveRecord "" (some [⟨0, 1, "", none, none⟩]) [] =
      ([], none, some SaveError.incompleteRecord) :=
  saveRecord_rejects_incomplete "" (some [⟨0, 1, "", none, none⟩]) [] (Or.inl rfl)

/-! ## Claim C10 -/

/-- C10: for every date-change event whose resolved candidate range fails
validation (future date, span over 30 days, or inverted), `handleDateChange`
returns the draft form state exactly as it was — previously accepted date
range and loaded observations included — and issues no provider request. -/
theorem handleDateChange_rejected_noop (st : FormState) (today : Int)
    (kind : ChangeKind) (sIn eIn : Option Int) (s e : Int)
    (hres : resolveDates st kind sIn eIn = (some s, some e))
    (hv : validateRange s e today ≠ none) :
    handleDateChange st today kind sIn eIn = (st, none) := by
  have hred : handleDateChange st today kind sIn eIn =
      (match validateRange s e today with
       | some _ => (st, none)
       | none => ({ st with startDate := s, endDate := e },
                  some ⟨st.lat, st.lon, s, e⟩)) := by
    unfold handleDateChange
    rw [hres]
  rcases h : validateRange s e today with _ | err
  · exact absurd h hv
  · rw [hred, h]

/-- Witness for C10: a change to the inverted candidate range
2024-01-10..2024-01-01 (which also lies after today 2024-01-08 and so
fails FutureDate first) leaves the form state untouched and issues no
fetch. -/
theorem handleDateChange_rejected_noop_witness :
    handleDateChange ⟨"Paris", 48, 2, toDays 2024 1 1, toDays 2024 1 8, none⟩
        (toDays 2024 1 8) ChangeKind.both
        (some (toDays 2024 1 10)) (some (toDays 2024 1 1)) =
      (⟨"Paris", 48, 2, toDays 2024 1 1, toDays 2024 1 8, none⟩, none) :=
  handleDateChange_rejected_noop _ _ _ _ _ (toDays 2024 1 10) (toDays 2024 1 1)
    rfl (by decide)

end WeatherApp
